import Mathlib

/-!
Shallow embedding of src/mqtt2wled.py.

The program is a bridge from an MQTT button-sensor stream to WLED lighting
controllers.  The stateful core is the class WledController; its mutable
fields become the structure CState below, and each method becomes a Lean
function from a state to an Outcome: the successor state, the list of
observable actions the method performed (timer cancellation, HTTP posts,
prints, timer rescheduling), and an optional Python exception that escaped
the method.  Delivery outcomes of requests.post are supplied by an
environment function from the endpoint address to a PostOutcome.  Machine
integers do not overflow in this program, so sensor states are plain Int
and cursors plain Nat.
-/

namespace M2W

/-- Python exceptions that the embedded fragments can raise. -/
inductive PyExc
  | indexError
  | jsonDecodeError
  | attributeError
  | requestException
  | unicodeDecodeError
  deriving DecidableEq

/-- Result of one requests.post call to one endpoint: either a completed
response with an HTTP status code, or a raised requests exception
(timeout, connection error). -/
inductive PostOutcome
  | status (code : Nat)
  | exn
  deriving DecidableEq

/-- Observable side effects of the controller methods, in program order:
timer.cancel(), the logging.info preset line, a completed requests.post
together with the printed status code, a requests.post that raised, the
simulate-mode print, creating and starting a new threading.Timer, the
retained-message log line, and the print(err) in the except clause. -/
inductive Action
  | timerCancel
  | logPreset (rot : Nat) (idx : Nat)
  | httpPost (ip : String) (data : String) (code : Nat)
  | httpPostFail (ip : String) (data : String)
  | printSim (ip : String)
  | timerSchedule (delay : Nat)
  | logRetain
  | printExc (e : PyExc)
  deriving DecidableEq

/-- The configuration fields of the program that the embedded methods
consult: args.simulate and args.autochange. -/
structure Config where
  simulate : Bool
  autochange : Nat
  deriving DecidableEq

/-- The mutable fields of WledController set in __init__. -/
structure CState where
  presets1 : List String
  presets2 : List String
  b2_last_state : Int
  b2_last_pressed : Option Int
  b3_last_state : Int
  b3_last_pressed : Option Int
  current_preset1 : Nat
  current_preset2 : Nat
  deriving DecidableEq

/-- Result of running one controller method: the state after it, the
actions it performed, and the exception that escaped it, if any.  State
mutations made before a raise persist, as in Python. -/
structure Outcome where
  state : CState
  actions : List Action
  error : Option PyExc
  deriving DecidableEq

/-- The fixed endpoint list self.wled_ips from __init__. -/
def wled_ips : List String :=
  ["172.24.1.201", "172.24.1.202", "172.24.1.203", "172.24.1.204"]

/-- The initial field values assigned in __init__ for given loaded preset
lists: both last states are -1, no press timestamps, both cursors 0. -/
def init_state (p1 p2 : List String) : CState :=
  { presets1 := p1, presets2 := p2
    b2_last_state := -1, b2_last_pressed := none
    b3_last_state := -1, b3_last_pressed := none
    current_preset1 := 0, current_preset2 := 0 }

/-- The cursor update in send_telegram: increment by one, then reset to 0
when the incremented value reaches or exceeds the list length
(self.current_preset += 1; if self.current_preset >= len(...): ... = 0). -/
def wrapNext (len c : Nat) : Nat :=
  if len ≤ c + 1 then 0 else c + 1

/-- The per-endpoint delivery loop of send_telegram (for ip in
self.wled_ips).  In simulate mode each endpoint only prints; otherwise
requests.post is issued and its printed status recorded, and a raised
requests exception propagates at once, ending the loop. -/
def broadcast (cfg : Config) (out : String → PostOutcome) (data : String) :
    List String → List Action × Option PyExc
  | [] => ([], none)
  | ip :: rest =>
    if cfg.simulate then
      let r := broadcast cfg out data rest
      (Action.printSim ip :: r.1, r.2)
    else
      match out ip with
      | PostOutcome.status c =>
        let r := broadcast cfg out data rest
        (Action.httpPost ip data c :: r.1, r.2)
      | PostOutcome.exn => ([Action.httpPostFail ip data], some PyExc.requestException)

/-- WledController.send_telegram(p): cancel the timer, advance the cursor
of rotation p (1 selects presets1, anything else presets2), index the
presets list at the new cursor (IndexError on an empty list), log, run the
delivery loop, and finally create and start a fresh timer with the
configured autochange delay.  An exception anywhere skips the rest of the
body, in particular the reschedule. -/
def send_telegram (cfg : Config) (out : String → PostOutcome) (s : CState)
    (p : Nat) : Outcome :=
  if p = 1 then
    let cp := wrapNext s.presets1.length s.current_preset1
    let s1 : CState := { s with current_preset1 := cp }
    match s.presets1[cp]? with
    | none => { state := s1, actions := [Action.timerCancel], error := some PyExc.indexError }
    | some data =>
      let r := broadcast cfg out data wled_ips
      match r.2 with
      | some e =>
        { state := s1
          actions := Action.timerCancel :: Action.logPreset 1 cp :: r.1
          error := some e }
      | none =>
        { state := s1
          actions := Action.timerCancel :: Action.logPreset 1 cp ::
            (r.1 ++ [Action.timerSchedule cfg.autochange])
          error := none }
  else
    let cp := wrapNext s.presets2.length s.current_preset2
    let s1 : CState := { s with current_preset2 := cp }
    match s.presets2[cp]? with
    | none => { state := s1, actions := [Action.timerCancel], error := some PyExc.indexError }
    | some data =>
      let r := broadcast cfg out data wled_ips
      match r.2 with
      | some e =>
        { state := s1
          actions := Action.timerCancel :: Action.logPreset 2 cp :: r.1
          error := some e }
      | none =>
        { state := s1
          actions := Action.timerCancel :: Action.logPreset 2 cp ::
            (r.1 ++ [Action.timerSchedule cfg.autochange])
          error := none }

/-- The data dictionary of a sensor message: the b2 and b3 entries, absent
entries being none (dict.get returns None). -/
structure BtnData where
  b2 : Option Int
  b3 : Option Int
  deriving DecidableEq

/-- A JSON object message: the mac entry and the data entry.  A missing
mac is none; a data entry that is missing or is not a dictionary is none
(either way values.get raises AttributeError). -/
structure SensorMsg where
  mac : Option String
  data : Option BtnData
  deriving DecidableEq

/-- The decoded payload string as json.loads sees it: not JSON at all
(json.loads raises), valid JSON that is not an object (msg.get raises
AttributeError), or an object. -/
inductive Payload
  | notJson
  | notDict
  | dict (m : SensorMsg)
  deriving DecidableEq

/-- The hard-coded device identifier compared against msg.get("mac"). -/
def device_mac : String := "80:7D:3A:47:59:BA"

/-- The elif branch of handle_jsonsensor for channel b3: if b3 is present
and differs from b3_last_state, then on a new state of 1 record the press
time and send rotation 2, and afterwards record the new state; a raise in
send_telegram skips the state update and is caught by the enclosing
except, which prints it. -/
def b3_branch (cfg : Config) (out : String → PostOutcome) (now : Int)
    (s : CState) (v : BtnData) : Outcome :=
  match v.b3 with
  | none => { state := s, actions := [], error := none }
  | some y =>
    if y = s.b3_last_state then { state := s, actions := [], error := none }
    else if y = 1 then
      let s1 : CState := { s with b3_last_pressed := some now }
      let r := send_telegram cfg out s1 2
      match r.error with
      | some e => { state := r.state, actions := r.actions ++ [Action.printExc e], error := none }
      | none => { state := { r.state with b3_last_state := y }, actions := r.actions, error := none }
    else { state := { s with b3_last_state := y }, actions := [], error := none }

/-- WledController.handle_jsonsensor.  json.loads runs before the try
block, so a payload that is not valid JSON raises an uncaught
JSONDecodeError.  Inside the try: readings whose mac differs from the
configured device are ignored; a missing or non-dictionary data entry
raises AttributeError, caught by the except clause which prints it;
channel b2 is checked first and channel b3 only in the elif, when b2
produced no new state value. -/
def handle_jsonsensor (cfg : Config) (out : String → PostOutcome) (now : Int)
    (s : CState) (pl : Payload) : Outcome :=
  match pl with
  | Payload.notJson => { state := s, actions := [], error := some PyExc.jsonDecodeError }
  | Payload.notDict => { state := s, actions := [Action.printExc PyExc.attributeError], error := none }
  | Payload.dict m =>
    if m.mac = some device_mac then
      match m.data with
      | none => { state := s, actions := [Action.printExc PyExc.attributeError], error := none }
      | some v =>
        match v.b2 with
        | none => b3_branch cfg out now s v
        | some x =>
          if x = s.b2_last_state then b3_branch cfg out now s v
          else if x = 1 then
            let s1 : CState := { s with b2_last_pressed := some now }
            let r := send_telegram cfg out s1 1
            match r.error with
            | some e => { state := r.state, actions := r.actions ++ [Action.printExc e], error := none }
            | none => { state := { r.state with b2_last_state := x }, actions := r.actions, error := none }
          else { state := { s with b2_last_state := x }, actions := [], error := none }
    else { state := s, actions := [], error := none }

/-- The raw message body as delivered by the broker: bytes that fail
utf-8 decoding, or a decoded payload string. -/
inductive RawPayload
  | notUtf8
  | utf8 (pl : Payload)
  deriving DecidableEq

/-- WledController.on_message: decode the body (a UnicodeDecodeError
propagates), then return at once on a retained message after logging it,
otherwise hand the payload to handle_jsonsensor. -/
def on_message (cfg : Config) (out : String → PostOutcome) (now : Int)
    (s : CState) (retain : Bool) (raw : RawPayload) : Outcome :=
  match raw with
  | RawPayload.notUtf8 => { state := s, actions := [], error := some PyExc.unicodeDecodeError }
  | RawPayload.utf8 pl =>
    if retain then { state := s, actions := [Action.logRetain], error := none }
    else handle_jsonsensor cfg out now s pl

/-- The layered configuration lookup get_setting.  The args object is
modelled by the optional command-line value (the attribute always exists
at every call site), the parsed config file by a partial map from section
to a partial map from key to value, and os.environ by a partial map from
name to value.  The branch structure mirrors the source if/elif chain:
note that when envname is non-empty the third branch returns
os.environ.get(envname) even when the variable is unset, so the dflt
argument is returned only when envname is empty. -/
def get_setting (argval : Option String)
    (config : String → Option (String → Option String))
    (sec key envname : String) (env : String → Option String)
    (dflt : Option String) : Option String :=
  if argval.isSome then argval
  else if !sec.isEmpty && !key.isEmpty &&
      (match config sec with
       | some m => (m key).isSome
       | none => false) then
    (match config sec with
     | some m => m key
     | none => none)
  else if !envname.isEmpty then env envname
  else dflt

/-- Count of rotation-1 preset log lines in a trace: one per completed
cursor advance of rotation 1. -/
def isAdv1 : Action → Bool
  | Action.logPreset 1 _ => true
  | _ => false

/-- Count of rotation-2 preset log lines in a trace. -/
def isAdv2 : Action → Bool
  | Action.logPreset 2 _ => true
  | _ => false

/-- A timer cancellation opens every send_telegram body, so counting them
counts the send_telegram invocations of either rotation. -/
def isAdvanceCall : Action → Bool
  | Action.timerCancel => true
  | _ => false

def countAdv1 (acts : List Action) : Nat := acts.countP isAdv1

def countAdv2 (acts : List Action) : Nat := acts.countP isAdv2

def countAdvances (acts : List Action) : Nat := acts.countP isAdvanceCall

/-! Sample configurations and delivery environments used to evaluate the
embedded methods at concrete inputs. -/

/-- Simulate mode with the default autochange delay of 300 seconds. -/
def cfgSim : Config := { simulate := true, autochange := 300 }

/-- Real delivery mode with the default autochange delay. -/
def cfgReal : Config := { simulate := false, autochange := 300 }

/-- An environment in which every endpoint answers 200. -/
def out200 : String → PostOutcome := fun _ => PostOutcome.status 200

/-- An environment in which the first endpoint raises a requests
exception and the others answer 200. -/
def outFail1 : String → PostOutcome :=
  fun ip => if ip = "172.24.1.201" then PostOutcome.exn else PostOutcome.status 200

/-- An environment in which the third endpoint raises a requests
exception and the others answer 200. -/
def outFail3 : String → PostOutcome :=
  fun ip => if ip = "172.24.1.203" then PostOutcome.exn else PostOutcome.status 200

/-- A sensor message from the configured device pressing b2 (b2 is 1,
b3 is 0). -/
def pressB2 : Payload :=
  Payload.dict { mac := some device_mac, data := some { b2 := some 1, b3 := some 0 } }

/-! Helper lemmas about the delivery loop and send_telegram. -/

/-- In simulate mode the delivery loop only prints, never fails. -/
theorem broadcast_sim (cfg : Config) (out : String → PostOutcome) (data : String)
    (ips : List String) (h : cfg.simulate = true) :
    broadcast cfg out data ips = (ips.map Action.printSim, none) := by
  induction ips with
  | nil => simp [broadcast]
  | cons ip rest ih => simp [broadcast, h, ih]

/-- When no endpoint raises, the delivery loop posts to every endpoint in
order, records each status, and reports no exception. -/
theorem broadcast_status (cfg : Config) (out : String → PostOutcome) (data : String)
    (ips : List String) (code : String → Nat)
    (h : cfg.simulate = false) (hout : ∀ ip, out ip = PostOutcome.status (code ip)) :
    broadcast cfg out data ips =
      (ips.map (fun ip => Action.httpPost ip data (code ip)), none) := by
  induction ips with
  | nil => simp [broadcast]
  | cons ip rest ih => simp [broadcast, h, hout ip, ih]

/-- Whatever the delivery environment and however the body ends, the state
after send_telegram 1 is the input state with the rotation-1 cursor
advanced by the wrapping increment. -/
theorem send_telegram_one_state (cfg : Config) (out : String → PostOutcome) (s : CState) :
    (send_telegram cfg out s 1).state =
      { s with current_preset1 := wrapNext s.presets1.length s.current_preset1 } := by
  unfold send_telegram
  rcases h : s.presets1[wrapNext s.presets1.length s.current_preset1]? with _ | d
  · simp [h]
  · simp only [h]
    rcases hb : broadcast cfg out d wled_ips with ⟨acts, e⟩
    cases e <;> simp [hb]

/-- Whatever the delivery environment and however the body ends, the state
after send_telegram with any rotation argument other than 1 is the input
state with the rotation-2 cursor advanced by the wrapping increment. -/
theorem send_telegram_two_state (cfg : Config) (out : String → PostOutcome) (s : CState)
    (p : Nat) (hp : p ≠ 1) :
    (send_telegram cfg out s p).state =
      { s with current_preset2 := wrapNext s.presets2.length s.current_preset2 } := by
  unfold send_telegram
  rw [if_neg hp]
  rcases h : s.presets2[wrapNext s.presets2.length s.current_preset2]? with _ | d
  · simp [h]
  · simp only [h]
    rcases hb : broadcast cfg out d wled_ips with ⟨acts, e⟩
    cases e <;> simp [hb]

/-- The full outcome of send_telegram 1 when the new cursor has a payload
and the delivery loop does not raise. -/
theorem send_telegram_one_eq (cfg : Config) (out : String → PostOutcome) (s : CState)
    (d : String)
    (hd : s.presets1[wrapNext s.presets1.length s.current_preset1]? = some d)
    (hb : (broadcast cfg out d wled_ips).2 = none) :
    send_telegram cfg out s 1 =
      { state := { s with current_preset1 := wrapNext s.presets1.length s.current_preset1 }
        actions := Action.timerCancel ::
          Action.logPreset 1 (wrapNext s.presets1.length s.current_preset1) ::
          ((broadcast cfg out d wled_ips).1 ++ [Action.timerSchedule cfg.autochange])
        error := none } := by
  unfold send_telegram
  simp only [hd]
  rcases hbe : broadcast cfg out d wled_ips with ⟨acts, e⟩
  rw [hbe] at hb
  simp only at hb
  subst hb
  simp [hbe]

/-- The full outcome of send_telegram with a rotation argument other than
1 (the source calls it with 2) when the new rotation-2 cursor has a
payload and the delivery loop does not raise. -/
theorem send_telegram_two_eq (cfg : Config) (out : String → PostOutcome) (s : CState)
    (p : Nat) (d : String) (hp : p ≠ 1)
    (hd : s.presets2[wrapNext s.presets2.length s.current_preset2]? = some d)
    (hb : (broadcast cfg out d wled_ips).2 = none) :
    send_telegram cfg out s p =
      { state := { s with current_preset2 := wrapNext s.presets2.length s.current_preset2 }
        actions := Action.timerCancel ::
          Action.logPreset 2 (wrapNext s.presets2.length s.current_preset2) ::
          ((broadcast cfg out d wled_ips).1 ++ [Action.timerSchedule cfg.autochange])
        error := none } := by
  unfold send_telegram
  simp only [hp, if_false, hd, if_neg]
  rcases hbe : broadcast cfg out d wled_ips with ⟨acts, e⟩
  rw [hbe] at hb
  simp only at hb
  subst hb
  simp [hbe]

/-- A non-empty list has a payload at the wrapped next cursor. -/
theorem wrapNext_getElem (l : List String) (c : Nat) (h : l ≠ []) :
    ∃ d, l[wrapNext l.length c]? = some d := by
  have hlen : 0 < l.length := List.length_pos.mpr h
  have hlt : wrapNext l.length c < l.length := by
    unfold wrapNext
    split <;> omega
  exact ⟨l[wrapNext l.length c], List.getElem?_eq_getElem hlt⟩

/-- Below its length, the wrapping increment is addition of one modulo
the length. -/
theorem wrapNext_eq_mod (len c : Nat) (h : c < len) :
    wrapNext len c = (c + 1) % len := by
  unfold wrapNext
  split
  · have : len = c + 1 := by omega
    simp [this]
  · have : c + 1 < len := by omega
    exact (Nat.mod_eq_of_lt this).symm

/-- A delivery loop that runs in simulate mode, or against an environment
in which no endpoint raises, itself reports no exception. -/
theorem broadcast_no_exn (cfg : Config) (out : String → PostOutcome) (data : String)
    (ips : List String)
    (h : cfg.simulate = true ∨ ∀ ip, out ip ≠ PostOutcome.exn) :
    (broadcast cfg out data ips).2 = none := by
  induction ips with
  | nil => simp [broadcast]
  | cons ip rest ih =>
    by_cases hs : cfg.simulate = true
    · simp [broadcast, hs, ih]
    · have hsf : cfg.simulate = false := by simpa using hs
      rcases h with h | hout
      · exact absurd h hs
      · rcases hc : out ip with c | _
        · simp [broadcast, hsf, hc, ih]
        · exact absurd hc (hout ip)

/-- A sensor message from the configured device carrying both channel
values. -/
def bothChanged (x y : Int) : Payload :=
  Payload.dict { mac := some device_mac, data := some { b2 := some x, b3 := some y } }

/-- A sensor message from the configured device carrying only a b2
value. -/
def b2_reading (b : Int) : Payload :=
  Payload.dict { mac := some device_mac, data := some { b2 := some b, b3 := none } }

/-- Feeding a list of b2 readings through handle_jsonsensor one after the
other, collecting the final state and the concatenated trace. -/
def runReadings (cfg : Config) (out : String → PostOutcome) (now : Int) :
    CState → List Int → CState × List Action
  | s, [] => (s, [])
  | s, b :: bs =>
    let r := handle_jsonsensor cfg out now s (b2_reading b)
    let t := runReadings cfg out now r.state bs
    (t.1, r.actions ++ t.2)

/-- Modelled from the spec wording of claim C9, for comparison with the
code: the number of edges in a b2 value sequence whose new state is 1 and
differs from the preceding recorded state l. -/
def specRisingEdges (l : Int) : List Int → Nat
  | [] => 0
  | b :: bs => (if b ≠ l ∧ b = 1 then 1 else 0) + specRisingEdges b bs

/-- The state reached by one send_telegram of rotation 1 (the state
component of the outcome, whatever the delivery produced). -/
def advance1 (cfg : Config) (out : String → PostOutcome) (s : CState) : CState :=
  (send_telegram cfg out s 1).state

/-- The state reached by one send_telegram of rotation 2. -/
def advance2 (cfg : Config) (out : String → PostOutcome) (s : CState) : CState :=
  (send_telegram cfg out s 2).state

/-- Evaluation of handle_jsonsensor on a matching message whose b2 value
is a fresh press (present, differs from the recorded state, equals 1), in
simulate mode with a non-empty rotation 1: the press time and new state
are recorded and rotation 1 is advanced and broadcast. -/
theorem handle_dict_b2_new (cfg : Config) (out : String → PostOutcome) (now : Int)
    (s : CState) (x : Int) (v : BtnData) (hv : v.b2 = some x)
    (hx : x ≠ s.b2_last_state) (hx1 : x = 1)
    (hsim : cfg.simulate = true) (hp1 : s.presets1 ≠ []) :
    handle_jsonsensor cfg out now s (Payload.dict { mac := some device_mac, data := some v }) =
      { state := { s with
          b2_last_pressed := some now,
          b2_last_state := x,
          current_preset1 := wrapNext s.presets1.length s.current_preset1 }
        actions := Action.timerCancel ::
          Action.logPreset 1 (wrapNext s.presets1.length s.current_preset1) ::
          (wled_ips.map Action.printSim ++ [Action.timerSchedule cfg.autochange])
        error := none } := by
  subst hx1
  obtain ⟨d, hd⟩ := wrapNext_getElem s.presets1 s.current_preset1 hp1
  have hb : (broadcast cfg out d wled_ips).2 = none :=
    broadcast_no_exn cfg out d wled_ips (Or.inl hsim)
  have hst := send_telegram_one_eq cfg out { s with b2_last_pressed := some now } d hd hb
  simp [handle_jsonsensor, hv, hx, hst, broadcast_sim cfg out d wled_ips hsim]

/-- Evaluation of handle_jsonsensor on a matching message whose b2 value
is a fresh non-press state (present, differs from the recorded state, is
not 1): only the recorded b2 state changes, silently. -/
theorem handle_dict_b2_release (cfg : Config) (out : String → PostOutcome) (now : Int)
    (s : CState) (x : Int) (v : BtnData) (hv : v.b2 = some x)
    (hx : x ≠ s.b2_last_state) (hx1 : x ≠ 1) :
    handle_jsonsensor cfg out now s (Payload.dict { mac := some device_mac, data := some v }) =
      { state := { s with b2_last_state := x }, actions := [], error := none } := by
  simp [handle_jsonsensor, hv, hx, hx1]

/-- Evaluation of handle_jsonsensor on a matching message whose b2 value
repeats the recorded state: control falls to the elif branch for b3. -/
theorem handle_dict_b2_same (cfg : Config) (out : String → PostOutcome) (now : Int)
    (s : CState) (x : Int) (v : BtnData) (hv : v.b2 = some x)
    (hx : x = s.b2_last_state) :
    handle_jsonsensor cfg out now s (Payload.dict { mac := some device_mac, data := some v }) =
      b3_branch cfg out now s v := by
  simp [handle_jsonsensor, hv, hx]

/-- Evaluation of the b3 elif branch on a fresh b3 press in simulate mode
with a non-empty rotation 2: the press time and new b3 state are recorded
and rotation 2 is advanced and broadcast. -/
theorem b3_branch_press (cfg : Config) (out : String → PostOutcome) (now : Int)
    (s : CState) (v : BtnData) (hv : v.b3 = some 1)
    (hy : s.b3_last_state ≠ 1)
    (hsim : cfg.simulate = true) (hp2 : s.presets2 ≠ []) :
    b3_branch cfg out now s v =
      { state := { s with
          b3_last_pressed := some now,
          b3_last_state := 1,
          current_preset2 := wrapNext s.presets2.length s.current_preset2 }
        actions := Action.timerCancel ::
          Action.logPreset 2 (wrapNext s.presets2.length s.current_preset2) ::
          (wled_ips.map Action.printSim ++ [Action.timerSchedule cfg.autochange])
        error := none } := by
  obtain ⟨d, hd⟩ := wrapNext_getElem s.presets2 s.current_preset2 hp2
  have hb : (broadcast cfg out d wled_ips).2 = none :=
    broadcast_no_exn cfg out d wled_ips (Or.inl hsim)
  have hst := send_telegram_two_eq cfg out { s with b3_last_pressed := some now } 2 d
    (by decide) hd hb
  simp [b3_branch, hv, Ne.symm hy, hst, broadcast_sim cfg out d wled_ips hsim]

/-- One b2 reading in simulate mode with a non-empty rotation 1: no error
escapes, the preset lists are preserved, the recorded b2 state becomes the
reading, and the trace advances rotation 1 exactly once when the reading
is a fresh press and never otherwise. -/
theorem handle_b2_step (cfg : Config) (out : String → PostOutcome) (now : Int)
    (s : CState) (b : Int)
    (hsim : cfg.simulate = true) (hp : s.presets1 ≠ []) :
    (handle_jsonsensor cfg out now s (b2_reading b)).error = none
    ∧ (handle_jsonsensor cfg out now s (b2_reading b)).state.presets1 = s.presets1
    ∧ (handle_jsonsensor cfg out now s (b2_reading b)).state.b2_last_state = b
    ∧ countAdv1 (handle_jsonsensor cfg out now s (b2_reading b)).actions =
        (if b ≠ s.b2_last_state ∧ b = 1 then 1 else 0) := by
  by_cases hb : b = s.b2_last_state
  · rw [b2_reading, handle_dict_b2_same cfg out now s b _ rfl hb]
    simp [b3_branch, hb, countAdv1]
  · by_cases hb1 : b = 1
    · rw [b2_reading, handle_dict_b2_new cfg out now s b _ rfl hb hb1 hsim hp]
      simp [hb, hb1, hb1 ▸ hb, countAdv1, isAdv1, wled_ips, List.countP_cons]
    · rw [b2_reading, handle_dict_b2_release cfg out now s b _ rfl hb hb1]
      simp [hb, hb1, countAdv1]

/-- Iterating the rotation-1 advance preserves the preset list and steps
the cursor by one modulo the length each time. -/
theorem advance1_iterate (cfg : Config) (out : String → PostOutcome) (s : CState)
    (k : Nat) (h : s.current_preset1 < s.presets1.length) :
    ((advance1 cfg out)^[k] s).presets1 = s.presets1
    ∧ ((advance1 cfg out)^[k] s).current_preset1 =
      (s.current_preset1 + k) % s.presets1.length := by
  have hpos : 0 < s.presets1.length := Nat.lt_of_le_of_lt (Nat.zero_le _) h
  induction k with
  | zero => simpa using (Nat.mod_eq_of_lt h).symm
  | succ k ih =>
    obtain ⟨hp, hc⟩ := ih
    rw [Function.iterate_succ_apply']
    constructor
    · rw [advance1, send_telegram_one_state]
      simpa using hp
    · rw [advance1, send_telegram_one_state]
      simp only [hp, hc]
      rw [wrapNext_eq_mod _ _ (Nat.mod_lt _ hpos), Nat.mod_add_mod, Nat.add_assoc]

/-- Iterating the rotation-2 advance preserves the preset list and steps
the cursor by one modulo the length each time. -/
theorem advance2_iterate (cfg : Config) (out : String → PostOutcome) (s : CState)
    (k : Nat) (h : s.current_preset2 < s.presets2.length) :
    ((advance2 cfg out)^[k] s).presets2 = s.presets2
    ∧ ((advance2 cfg out)^[k] s).current_preset2 =
      (s.current_preset2 + k) % s.presets2.length := by
  have hpos : 0 < s.presets2.length := Nat.lt_of_le_of_lt (Nat.zero_le _) h
  induction k with
  | zero => simpa using (Nat.mod_eq_of_lt h).symm
  | succ k ih =>
    obtain ⟨hp, hc⟩ := ih
    rw [Function.iterate_succ_apply']
    constructor
    · rw [advance2,
        send_telegram_two_state cfg out ((advance2 cfg out)^[k] s) 2 (by decide)]
      simpa using hp
    · rw [advance2,
        send_telegram_two_state cfg out ((advance2 cfg out)^[k] s) 2 (by decide)]
      simp only [hp, hc]
      rw [wrapNext_eq_mod _ _ (Nat.mod_lt _ hpos), Nat.mod_add_mod, Nat.add_assoc]

/-! Claim theorems. -/

/-- Claim C1, counterexample: advancing the empty rotation 1 does crash.
At simulate mode, default delay and empty presets1 the operation ends
with an IndexError, and the trace holds no warning and no timer
reschedule, refuting the claimed no-op-with-warning-and-reschedule
behavior. -/
theorem c1_counterexample :
    (send_telegram cfgSim out200 (init_state [] ["X"]) 1).error = some PyExc.indexError
    ∧ Action.timerSchedule 300 ∉ (send_telegram cfgSim out200 (init_state [] ["X"]) 1).actions
    ∧ (send_telegram cfgSim out200 (init_state [] ["X"]) 1).actions = [Action.timerCancel] := by
  decide

/-- Claim C1 as amended: every advance invocation targeting an empty
rotation — rotation 1 when presets1 is empty, or any other rotation
argument (the source passes 2) when presets2 is empty — cancels the
timer, resets the selected cursor to 0, performs no broadcast, raises an
IndexError that escapes the method, and does not reschedule the timer. -/
theorem c1_empty_rotation_behavior (cfg : Config) (out : String → PostOutcome)
    (s : CState) (p : Nat)
    (hp : (p = 1 ∧ s.presets1 = []) ∨ (p ≠ 1 ∧ s.presets2 = [])) :
    (send_telegram cfg out s p).error = some PyExc.indexError
    ∧ (send_telegram cfg out s p).actions = [Action.timerCancel]
    ∧ (p = 1 → (send_telegram cfg out s p).state = { s with current_preset1 := 0 })
    ∧ (p ≠ 1 → (send_telegram cfg out s p).state = { s with current_preset2 := 0 }) := by
  rcases hp with ⟨hp1, hpe⟩ | ⟨hp1, hpe⟩
  · subst hp1
    have h : send_telegram cfg out s 1 =
        { state := { s with current_preset1 := 0 }
          actions := [Action.timerCancel]
          error := some PyExc.indexError } := by
      unfold send_telegram
      simp [hpe, wrapNext]
    rw [h]
    exact ⟨rfl, rfl, fun _ => rfl, fun h1 => absurd rfl h1⟩
  · have h : send_telegram cfg out s p =
        { state := { s with current_preset2 := 0 }
          actions := [Action.timerCancel]
          error := some PyExc.indexError } := by
      unfold send_telegram
      rw [if_neg hp1]
      simp [hpe, wrapNext]
    rw [h]
    exact ⟨rfl, rfl, fun h1 => absurd h1 hp1, fun _ => rfl⟩

/-- Witness for the amended claim C1, at a concrete empty rotation 1 and
a concrete empty rotation 2. -/
theorem c1_empty_rotation_behavior_witness :
    (((1 : Nat) = 1 ∧ (init_state [] []).presets1 = [])
      ∨ ((1 : Nat) ≠ 1 ∧ (init_state [] []).presets2 = []))
    ∧ ((send_telegram cfgSim out200 (init_state [] []) 1).error = some PyExc.indexError
      ∧ (send_telegram cfgSim out200 (init_state [] []) 1).actions = [Action.timerCancel]
      ∧ ((1 : Nat) = 1 → (send_telegram cfgSim out200 (init_state [] []) 1).state =
          { init_state [] [] with current_preset1 := 0 })
      ∧ ((1 : Nat) ≠ 1 → (send_telegram cfgSim out200 (init_state [] []) 1).state =
          { init_state [] [] with current_preset2 := 0 }))
    ∧ (((2 : Nat) = 1 ∧ (init_state ["X"] []).presets1 = [])
      ∨ ((2 : Nat) ≠ 1 ∧ (init_state ["X"] []).presets2 = []))
    ∧ ((send_telegram cfgSim out200 (init_state ["X"] []) 2).error = some PyExc.indexError
      ∧ (send_telegram cfgSim out200 (init_state ["X"] []) 2).actions = [Action.timerCancel]
      ∧ ((2 : Nat) = 1 → (send_telegram cfgSim out200 (init_state ["X"] []) 2).state =
          { init_state ["X"] [] with current_preset1 := 0 })
      ∧ ((2 : Nat) ≠ 1 → (send_telegram cfgSim out200 (init_state ["X"] []) 2).state =
          { init_state ["X"] [] with current_preset2 := 0 })) :=
  ⟨Or.inl ⟨rfl, rfl⟩,
    c1_empty_rotation_behavior cfgSim out200 (init_state [] []) 1 (Or.inl ⟨rfl, rfl⟩),
    Or.inr ⟨by decide, rfl⟩,
    c1_empty_rotation_behavior cfgSim out200 (init_state ["X"] []) 2
      (Or.inr ⟨by decide, rfl⟩)⟩

/-- Claim C2, counterexample: a payload that is not valid JSON is parsed
before the try block, so the JSONDecodeError escapes the handler instead
of being caught at the message boundary. -/
theorem c2_counterexample :
    (handle_jsonsensor cfgSim out200 0 (init_state ["A"] []) Payload.notJson).error ≠ none := by
  decide

/-- Claim C2 as amended: a payload that is not valid JSON raises an
uncaught JSONDecodeError out of the handler, though without mutating any
state or triggering an advance; every other malformed shape is caught
inside the handler: a non-object JSON body and a missing or non-object
data entry are caught and printed, and a data object without b2 and b3
entries falls through silently — in all these cases no state is mutated,
no advance is triggered and no error escapes. -/
theorem c2_malformed_message_behavior (cfg : Config) (out : String → PostOutcome)
    (now : Int) (s : CState) :
    ((handle_jsonsensor cfg out now s Payload.notJson).state = s
      ∧ (handle_jsonsensor cfg out now s Payload.notJson).error = some PyExc.jsonDecodeError
      ∧ countAdvances (handle_jsonsensor cfg out now s Payload.notJson).actions = 0)
    ∧ ((handle_jsonsensor cfg out now s Payload.notDict).state = s
      ∧ (handle_jsonsensor cfg out now s Payload.notDict).error = none
      ∧ countAdvances (handle_jsonsensor cfg out now s Payload.notDict).actions = 0)
    ∧ (∀ mo : Option String,
        (handle_jsonsensor cfg out now s (Payload.dict { mac := mo, data := none })).state = s
        ∧ (handle_jsonsensor cfg out now s (Payload.dict { mac := mo, data := none })).error = none
        ∧ countAdvances (handle_jsonsensor cfg out now s
            (Payload.dict { mac := mo, data := none })).actions = 0)
    ∧ (∀ mo : Option String,
        (handle_jsonsensor cfg out now s
            (Payload.dict { mac := mo, data := some { b2 := none, b3 := none } })).state = s
        ∧ (handle_jsonsensor cfg out now s
            (Payload.dict { mac := mo, data := some { b2 := none, b3 := none } })).error = none
        ∧ (handle_jsonsensor cfg out now s
            (Payload.dict { mac := mo, data := some { b2 := none, b3 := none } })).actions = []) := by
  refine ⟨⟨rfl, rfl, rfl⟩, ⟨rfl, rfl, rfl⟩, ?_, ?_⟩
  · intro mo
    by_cases hm : mo = some device_mac <;>
      simp [handle_jsonsensor, hm, countAdvances, isAdvanceCall]
  · intro mo
    by_cases hm : mo = some device_mac <;>
      simp [handle_jsonsensor, b3_branch, hm]

/-- Claim C3, counterexample: with a raised requests exception at the
first endpoint, the delivery loop stops at once — the three remaining
endpoints receive nothing, the advance ends with the exception, and the
timer is not rescheduled. -/
theorem c3_counterexample :
    send_telegram cfgReal outFail1 (init_state ["A"] []) 1 =
      { state := init_state ["A"] []
        actions := [Action.timerCancel, Action.logPreset 1 0,
          Action.httpPostFail "172.24.1.201" "A"]
        error := some PyExc.requestException } := by
  decide

/-- Claim C3 as amended: a completed response with any status code,
2xx or not, is handled independently per endpoint: for an advance of
either rotation, every endpoint in the fixed list still receives the
request, the advance completes without error and reschedules the timer;
only a raised requests exception (timeout, connection error) aborts the
remaining endpoints and the advance. -/
theorem c3_status_failures_independent (cfg : Config) (out : String → PostOutcome)
    (s : CState) (p : Nat) (d : String) (code : String → Nat)
    (hsim : cfg.simulate = false)
    (hout : ∀ ip, out ip = PostOutcome.status (code ip)) :
    (p = 1 → s.presets1[wrapNext s.presets1.length s.current_preset1]? = some d →
      send_telegram cfg out s p =
        { state := { s with current_preset1 := wrapNext s.presets1.length s.current_preset1 }
          actions := Action.timerCancel ::
            Action.logPreset 1 (wrapNext s.presets1.length s.current_preset1) ::
            (wled_ips.map (fun ip => Action.httpPost ip d (code ip)) ++
              [Action.timerSchedule cfg.autochange])
          error := none })
    ∧ (p ≠ 1 → s.presets2[wrapNext s.presets2.length s.current_preset2]? = some d →
      send_telegram cfg out s p =
        { state := { s with current_preset2 := wrapNext s.presets2.length s.current_preset2 }
          actions := Action.timerCancel ::
            Action.logPreset 2 (wrapNext s.presets2.length s.current_preset2) ::
            (wled_ips.map (fun ip => Action.httpPost ip d (code ip)) ++
              [Action.timerSchedule cfg.autochange])
          error := none }) := by
  have hb := broadcast_status cfg out d wled_ips code hsim hout
  constructor
  · intro hp hd
    subst hp
    have h := send_telegram_one_eq cfg out s d hd (by rw [hb])
    rw [h, hb]
  · intro hp hd
    have h := send_telegram_two_eq cfg out s p d hp hd (by rw [hb])
    rw [h, hb]

/-- Witness for the amended claim C3: four endpoints, statuses all 200,
exercising an advance of rotation 1 and an advance of rotation 2. -/
theorem c3_status_failures_independent_witness :
    cfgReal.simulate = false
    ∧ (∀ ip, out200 ip = PostOutcome.status 200)
    ∧ (init_state ["A"] ["B"]).presets1[wrapNext (init_state ["A"] ["B"]).presets1.length
        (init_state ["A"] ["B"]).current_preset1]? = some "A"
    ∧ send_telegram cfgReal out200 (init_state ["A"] ["B"]) 1 =
      { state := { init_state ["A"] ["B"] with
          current_preset1 := wrapNext (init_state ["A"] ["B"]).presets1.length
            (init_state ["A"] ["B"]).current_preset1 }
        actions := Action.timerCancel ::
          Action.logPreset 1 (wrapNext (init_state ["A"] ["B"]).presets1.length
            (init_state ["A"] ["B"]).current_preset1) ::
          (wled_ips.map (fun ip => Action.httpPost ip "A" ((fun _ => 200) ip)) ++
            [Action.timerSchedule cfgReal.autochange])
        error := none }
    ∧ (init_state ["A"] ["B"]).presets2[wrapNext (init_state ["A"] ["B"]).presets2.length
        (init_state ["A"] ["B"]).current_preset2]? = some "B"
    ∧ send_telegram cfgReal out200 (init_state ["A"] ["B"]) 2 =
      { state := { init_state ["A"] ["B"] with
          current_preset2 := wrapNext (init_state ["A"] ["B"]).presets2.length
            (init_state ["A"] ["B"]).current_preset2 }
        actions := Action.timerCancel ::
          Action.logPreset 2 (wrapNext (init_state ["A"] ["B"]).presets2.length
            (init_state ["A"] ["B"]).current_preset2) ::
          (wled_ips.map (fun ip => Action.httpPost ip "B" ((fun _ => 200) ip)) ++
            [Action.timerSchedule cfgReal.autochange])
        error := none } :=
  ⟨rfl, fun _ => rfl, rfl,
    (c3_status_failures_independent cfgReal out200 (init_state ["A"] ["B"]) 1 "A"
      (fun _ => 200) rfl (fun _ => rfl)).1 rfl rfl,
    rfl,
    (c3_status_failures_independent cfgReal out200 (init_state ["A"] ["B"]) 2 "B"
      (fun _ => 200) rfl (fun _ => rfl)).2 (by decide) rfl⟩

/-- Claim C4, counterexample: with a raised requests exception at the
third endpoint, the broadcast is cut short and the timer is NOT
rescheduled, refuting reschedule-regardless-of-broadcast-outcome: the
trace ends at the failed post, with no timerSchedule. -/
theorem c4_counterexample :
    send_telegram cfgReal outFail3 (init_state ["A"] []) 1 =
      { state := init_state ["A"] []
        actions := [Action.timerCancel, Action.logPreset 1 0,
          Action.httpPost "172.24.1.201" "A" 200,
          Action.httpPost "172.24.1.202" "A" 200,
          Action.httpPostFail "172.24.1.203" "A"]
        error := some PyExc.requestException }
    ∧ Action.timerSchedule 300 ∉ (send_telegram cfgReal outFail3 (init_state ["A"] []) 1).actions := by
  decide

/-- Claim C4 as amended: when the selected rotation is non-empty and no
delivery raises (simulate mode, or an environment of completed responses
of any status), send_telegram follows the claimed sequence: the timer
cancellation is the first action, the selected cursor is advanced by the
wrapping increment and the other cursor untouched, the broadcast actions
sit in the middle, and the final action reschedules the timer with the
configured idle delay, regardless of the delivery status codes.  An
empty rotation or a raised delivery error instead ends the operation
before the reschedule (claims C1 and C3). -/
theorem c4_advance_sequence (cfg : Config) (out : String → PostOutcome) (s : CState)
    (p : Nat)
    (hok : cfg.simulate = true ∨ ∀ ip, out ip ≠ PostOutcome.exn)
    (hp1 : s.presets1 ≠ []) (hp2 : s.presets2 ≠ []) :
    ∃ mid,
      (send_telegram cfg out s p).actions =
        Action.timerCancel :: (mid ++ [Action.timerSchedule cfg.autochange])
      ∧ (send_telegram cfg out s p).error = none
      ∧ (p = 1 →
          (send_telegram cfg out s p).state.current_preset1 =
            wrapNext s.presets1.length s.current_preset1
          ∧ (send_telegram cfg out s p).state.current_preset2 = s.current_preset2)
      ∧ (p ≠ 1 →
          (send_telegram cfg out s p).state.current_preset2 =
            wrapNext s.presets2.length s.current_preset2
          ∧ (send_telegram cfg out s p).state.current_preset1 = s.current_preset1) := by
  by_cases hp : p = 1
  · subst hp
    obtain ⟨d, hd⟩ := wrapNext_getElem s.presets1 s.current_preset1 hp1
    have hb := broadcast_no_exn cfg out d wled_ips hok
    rw [send_telegram_one_eq cfg out s d hd hb]
    exact ⟨Action.logPreset 1 (wrapNext s.presets1.length s.current_preset1) ::
      (broadcast cfg out d wled_ips).1, by simp, rfl,
      fun _ => ⟨rfl, rfl⟩, fun h => absurd rfl h⟩
  · obtain ⟨d, hd⟩ := wrapNext_getElem s.presets2 s.current_preset2 hp2
    have hb := broadcast_no_exn cfg out d wled_ips hok
    rw [send_telegram_two_eq cfg out s p d hp hd hb]
    exact ⟨Action.logPreset 2 (wrapNext s.presets2.length s.current_preset2) ::
      (broadcast cfg out d wled_ips).1, by simp, rfl,
      fun h => absurd h hp, fun _ => ⟨rfl, rfl⟩⟩

/-- Witness for the amended claim C4, advancing rotation 2 in simulate
mode on one-element rotations. -/
theorem c4_advance_sequence_witness :
    (cfgSim.simulate = true ∨ ∀ ip, out200 ip ≠ PostOutcome.exn)
    ∧ (init_state ["A"] ["B"]).presets1 ≠ []
    ∧ (init_state ["A"] ["B"]).presets2 ≠ []
    ∧ (∃ mid,
        (send_telegram cfgSim out200 (init_state ["A"] ["B"]) 2).actions =
          Action.timerCancel :: (mid ++ [Action.timerSchedule cfgSim.autochange])
        ∧ (send_telegram cfgSim out200 (init_state ["A"] ["B"]) 2).error = none
        ∧ ((2 : Nat) = 1 →
            (send_telegram cfgSim out200 (init_state ["A"] ["B"]) 2).state.current_preset1 =
              wrapNext (init_state ["A"] ["B"]).presets1.length
                (init_state ["A"] ["B"]).current_preset1
            ∧ (send_telegram cfgSim out200 (init_state ["A"] ["B"]) 2).state.current_preset2 =
              (init_state ["A"] ["B"]).current_preset2)
        ∧ ((2 : Nat) ≠ 1 →
            (send_telegram cfgSim out200 (init_state ["A"] ["B"]) 2).state.current_preset2 =
              wrapNext (init_state ["A"] ["B"]).presets2.length
                (init_state ["A"] ["B"]).current_preset2
            ∧ (send_telegram cfgSim out200 (init_state ["A"] ["B"]) 2).state.current_preset1 =
              (init_state ["A"] ["B"]).current_preset1)) :=
  ⟨Or.inl rfl, by decide, by decide,
    c4_advance_sequence cfgSim out200 (init_state ["A"] ["B"]) 2
      (Or.inl rfl) (by decide) (by decide)⟩

/-- Claim C8: the code is wrong on the final layer of the lookup.  The
first three layers hold: a present command-line value wins, then a
present config-file entry, then a set environment variable.  But when an
environment variable name is supplied (as at every call site) and the
variable is unset, get_setting returns the unset lookup itself — None —
and the built-in default is dead code, so the MQTT host resolves to None
rather than 127.0.0.1. -/
theorem c8_env_default_dead :
    get_setting (some "argh") (fun _ => some (fun _ => some "cfgh"))
      "mqtt" "host" "MQTT_HOST" (fun _ => some "envh") (some "127.0.0.1") = some "argh"
    ∧ get_setting none (fun se => if se = "mqtt" then some (fun k => if k = "host" then some "cfgh" else none) else none)
      "mqtt" "host" "MQTT_HOST" (fun _ => some "envh") (some "127.0.0.1") = some "cfgh"
    ∧ get_setting none (fun _ => none)
      "mqtt" "host" "MQTT_HOST" (fun nm => if nm = "MQTT_HOST" then some "envh" else none)
      (some "127.0.0.1") = some "envh"
    ∧ get_setting none (fun _ => none)
      "mqtt" "host" "MQTT_HOST" (fun _ => none) (some "127.0.0.1") = none := by
  decide

/-- Counting advances of rotation 1 distributes over trace
concatenation. -/
theorem countAdv1_append (a b : List Action) :
    countAdv1 (a ++ b) = countAdv1 a + countAdv1 b := by
  simp [countAdv1, List.countP_append]

/-- Claim C5: when one reading from the configured device changes both b2
and b3, only the b2 transition is processed: the recorded b2 state becomes
the new value and rotation 1 is advanced exactly when the new value is 1,
while the recorded b3 state and press time are untouched and rotation 2 is
never advanced.  Stated in simulate mode with a non-empty rotation 1 so
that the advance itself cannot raise. -/
theorem c5_b2_priority (cfg : Config) (out : String → PostOutcome) (now : Int)
    (s : CState) (x y : Int)
    (hsim : cfg.simulate = true) (hp : s.presets1 ≠ [])
    (hx : x ≠ s.b2_last_state) (_hy : y ≠ s.b3_last_state) :
    (handle_jsonsensor cfg out now s (bothChanged x y)).state.b2_last_state = x
    ∧ (handle_jsonsensor cfg out now s (bothChanged x y)).state.b3_last_state = s.b3_last_state
    ∧ (handle_jsonsensor cfg out now s (bothChanged x y)).state.b3_last_pressed = s.b3_last_pressed
    ∧ countAdv1 (handle_jsonsensor cfg out now s (bothChanged x y)).actions =
        (if x = 1 then 1 else 0)
    ∧ countAdv2 (handle_jsonsensor cfg out now s (bothChanged x y)).actions = 0
    ∧ (handle_jsonsensor cfg out now s (bothChanged x y)).error = none := by
  by_cases hx1 : x = 1
  · rw [bothChanged, handle_dict_b2_new cfg out now s x _ rfl hx hx1 hsim hp]
    simp [hx1, countAdv1, countAdv2, isAdv1, isAdv2, wled_ips, List.countP_cons]
  · rw [bothChanged, handle_dict_b2_release cfg out now s x _ rfl hx hx1]
    simp [hx1, countAdv1, countAdv2]

/-- Witness for claim C5: a simultaneous b2 and b3 press on fresh state. -/
theorem c5_b2_priority_witness :
    cfgSim.simulate = true
    ∧ (init_state ["A"] ["B"]).presets1 ≠ []
    ∧ (1 : Int) ≠ (init_state ["A"] ["B"]).b2_last_state
    ∧ (1 : Int) ≠ (init_state ["A"] ["B"]).b3_last_state
    ∧ ((handle_jsonsensor cfgSim out200 7 (init_state ["A"] ["B"])
          (bothChanged 1 1)).state.b2_last_state = 1
      ∧ (handle_jsonsensor cfgSim out200 7 (init_state ["A"] ["B"])
          (bothChanged 1 1)).state.b3_last_state = (init_state ["A"] ["B"]).b3_last_state
      ∧ (handle_jsonsensor cfgSim out200 7 (init_state ["A"] ["B"])
          (bothChanged 1 1)).state.b3_last_pressed = (init_state ["A"] ["B"]).b3_last_pressed
      ∧ countAdv1 (handle_jsonsensor cfgSim out200 7 (init_state ["A"] ["B"])
          (bothChanged 1 1)).actions = (if (1 : Int) = 1 then 1 else 0)
      ∧ countAdv2 (handle_jsonsensor cfgSim out200 7 (init_state ["A"] ["B"])
          (bothChanged 1 1)).actions = 0
      ∧ (handle_jsonsensor cfgSim out200 7 (init_state ["A"] ["B"])
          (bothChanged 1 1)).error = none) :=
  ⟨rfl, by decide, by decide, by decide,
    c5_b2_priority cfgSim out200 7 (init_state ["A"] ["B"]) 1 1 rfl
      (by decide) (by decide) (by decide)⟩

/-- Claim C6: for every non-empty rotation — rotation 1 and rotation 2
alike, each with its own duplicated cursor code — an advance moves that
rotation's cursor to the old cursor plus one modulo the length,
broadcasts the payload at the new cursor to every endpoint, and N
advances return the cursor to its start; and on the rotation A B C with
cursor 0 three consecutive advances broadcast B, then C, then A, after
which the whole state is back to its start. -/
theorem c6_rotation_cycle (cfg : Config) (out : String → PostOutcome) (s : CState)
    (code : String → Nat)
    (hsim : cfg.simulate = false) (hout : ∀ ip, out ip = PostOutcome.status (code ip)) :
    (∀ (N c : Nat) (d : String), s.presets1.length = N → s.current_preset1 = c →
      c < N → s.presets1[(c + 1) % N]? = some d →
      (send_telegram cfg out s 1).state.current_preset1 = (c + 1) % N
      ∧ (∀ ip ∈ wled_ips, Action.httpPost ip d (code ip) ∈ (send_telegram cfg out s 1).actions)
      ∧ ((advance1 cfg out)^[N] s).current_preset1 = c)
    ∧ (∀ (N c : Nat) (d : String), s.presets2.length = N → s.current_preset2 = c →
      c < N → s.presets2[(c + 1) % N]? = some d →
      (send_telegram cfg out s 2).state.current_preset2 = (c + 1) % N
      ∧ (∀ ip ∈ wled_ips, Action.httpPost ip d (code ip) ∈ (send_telegram cfg out s 2).actions)
      ∧ ((advance2 cfg out)^[N] s).current_preset2 = c)
    ∧ Action.httpPost "172.24.1.201" "B" 200 ∈
        (send_telegram cfgReal out200 (init_state ["A", "B", "C"] []) 1).actions
    ∧ Action.httpPost "172.24.1.201" "C" 200 ∈
        (send_telegram cfgReal out200
          (advance1 cfgReal out200 (init_state ["A", "B", "C"] [])) 1).actions
    ∧ Action.httpPost "172.24.1.201" "A" 200 ∈
        (send_telegram cfgReal out200
          ((advance1 cfgReal out200)^[2] (init_state ["A", "B", "C"] [])) 1).actions
    ∧ (advance1 cfgReal out200)^[3] (init_state ["A", "B", "C"] []) =
        init_state ["A", "B", "C"] [] := by
  refine ⟨?_, ?_, by decide, by decide, by decide, by decide⟩
  · intro N c d hN hc hcN hd
    have hw : wrapNext s.presets1.length s.current_preset1 = (c + 1) % N := by
      rw [hN, hc, wrapNext_eq_mod _ _ hcN]
    have hd' : s.presets1[wrapNext s.presets1.length s.current_preset1]? = some d := by
      rw [hw]; exact hd
    have hb := broadcast_status cfg out d wled_ips code hsim hout
    have heq := send_telegram_one_eq cfg out s d hd' (by rw [hb])
    refine ⟨?_, ?_, ?_⟩
    · rw [heq]; exact hw
    · intro ip hip
      rw [heq, hb]
      apply List.mem_cons_of_mem
      apply List.mem_cons_of_mem
      exact List.mem_append_left _ (List.mem_map_of_mem _ hip)
    · have hlt : s.current_preset1 < s.presets1.length := by rw [hN, hc]; exact hcN
      have h2 := (advance1_iterate cfg out s N hlt).2
      rw [h2, hc, hN, Nat.add_mod_right]
      exact Nat.mod_eq_of_lt hcN
  · intro N c d hN hc hcN hd
    have hw : wrapNext s.presets2.length s.current_preset2 = (c + 1) % N := by
      rw [hN, hc, wrapNext_eq_mod _ _ hcN]
    have hd' : s.presets2[wrapNext s.presets2.length s.current_preset2]? = some d := by
      rw [hw]; exact hd
    have hb := broadcast_status cfg out d wled_ips code hsim hout
    have heq := send_telegram_two_eq cfg out s 2 d (by decide) hd' (by rw [hb])
    refine ⟨?_, ?_, ?_⟩
    · rw [heq]; exact hw
    · intro ip hip
      rw [heq, hb]
      apply List.mem_cons_of_mem
      apply List.mem_cons_of_mem
      exact List.mem_append_left _ (List.mem_map_of_mem _ hip)
    · have hlt : s.current_preset2 < s.presets2.length := by rw [hN, hc]; exact hcN
      have h2 := (advance2_iterate cfg out s N hlt).2
      rw [h2, hc, hN, Nat.add_mod_right]
      exact Nat.mod_eq_of_lt hcN

/-- Witness for claim C6 on the three-element rotation 1 A B C and the
two-element rotation 2 D E, both with cursor 0 and four endpoints
answering 200. -/
theorem c6_rotation_cycle_witness :
    cfgReal.simulate = false
    ∧ (∀ ip, out200 ip = PostOutcome.status 200)
    ∧ (init_state ["A", "B", "C"] ["D", "E"]).presets1.length = 3
    ∧ (init_state ["A", "B", "C"] ["D", "E"]).current_preset1 = 0
    ∧ (init_state ["A", "B", "C"] ["D", "E"]).presets1[(0 + 1) % 3]? = some "B"
    ∧ ((send_telegram cfgReal out200
          (init_state ["A", "B", "C"] ["D", "E"]) 1).state.current_preset1 = (0 + 1) % 3
      ∧ (∀ ip ∈ wled_ips, Action.httpPost ip "B" ((fun _ => 200) ip) ∈
          (send_telegram cfgReal out200 (init_state ["A", "B", "C"] ["D", "E"]) 1).actions)
      ∧ ((advance1 cfgReal out200)^[3]
          (init_state ["A", "B", "C"] ["D", "E"])).current_preset1 = 0)
    ∧ (init_state ["A", "B", "C"] ["D", "E"]).presets2.length = 2
    ∧ (init_state ["A", "B", "C"] ["D", "E"]).current_preset2 = 0
    ∧ (init_state ["A", "B", "C"] ["D", "E"]).presets2[(0 + 1) % 2]? = some "E"
    ∧ ((send_telegram cfgReal out200
          (init_state ["A", "B", "C"] ["D", "E"]) 2).state.current_preset2 = (0 + 1) % 2
      ∧ (∀ ip ∈ wled_ips, Action.httpPost ip "E" ((fun _ => 200) ip) ∈
          (send_telegram cfgReal out200 (init_state ["A", "B", "C"] ["D", "E"]) 2).actions)
      ∧ ((advance2 cfgReal out200)^[2]
          (init_state ["A", "B", "C"] ["D", "E"])).current_preset2 = 0) :=
  ⟨rfl, fun _ => rfl, rfl, rfl, rfl,
    (c6_rotation_cycle cfgReal out200 (init_state ["A", "B", "C"] ["D", "E"])
      (fun _ => 200) rfl (fun _ => rfl)).1 3 0 "B" rfl rfl (by decide) rfl,
    rfl, rfl, rfl,
    (c6_rotation_cycle cfgReal out200 (init_state ["A", "B", "C"] ["D", "E"])
      (fun _ => 200) rfl (fun _ => rfl)).2.1 2 0 "E" rfl rfl (by decide) rfl⟩

/-- Claim C7: a retained message is dropped after only the body decode,
before any JSON parsing or debouncing: for every state and raw body the
state is unchanged and no advance is triggered; and an identical
non-retained press message delivered right afterwards is processed
normally and triggers exactly one advance. -/
theorem c7_retained_ignored :
    (∀ (cfg : Config) (out : String → PostOutcome) (now : Int) (s : CState)
        (raw : RawPayload),
        (on_message cfg out now s true raw).state = s
        ∧ countAdvances (on_message cfg out now s true raw).actions = 0)
    ∧ (on_message cfgSim out200 0 (init_state ["A"] []) true
        (RawPayload.utf8 pressB2)).state = init_state ["A"] []
    ∧ countAdvances (on_message cfgSim out200 0 (init_state ["A"] []) true
        (RawPayload.utf8 pressB2)).actions = 0
    ∧ countAdvances (on_message cfgSim out200 0 (init_state ["A"] []) false
        (RawPayload.utf8 pressB2)).actions = 1 := by
  refine ⟨?_, by decide, by decide, by decide⟩
  intro cfg out now s raw
  cases raw <;> exact ⟨rfl, rfl⟩

/-- Claim C9: feeding any b2 value sequence from the configured device
through the handler, the number of rotation-1 advances in the produced
trace is exactly the number of fresh edges to state 1: each 0 to 1 edge
yields one advance, each 1 to 0 edge yields none, and repeated identical
states yield none.  Stated in simulate mode with a non-empty rotation 1
so that no advance raises. -/
theorem c9_rising_edges (cfg : Config) (out : String → PostOutcome) (now : Int)
    (s : CState) (bs : List Int)
    (hsim : cfg.simulate = true) (hp : s.presets1 ≠ []) :
    countAdv1 (runReadings cfg out now s bs).2 = specRisingEdges s.b2_last_state bs := by
  have main : ∀ t : CState, t.presets1 ≠ [] →
      countAdv1 (runReadings cfg out now t bs).2 = specRisingEdges t.b2_last_state bs := by
    induction bs with
    | nil => intro t ht; simp [runReadings, specRisingEdges, countAdv1]
    | cons b bs ih =>
      intro t ht
      obtain ⟨he, hpres, hlast, hcount⟩ := handle_b2_step cfg out now t b hsim ht
      have h2 : (runReadings cfg out now t (b :: bs)).2 =
          (handle_jsonsensor cfg out now t (b2_reading b)).actions ++
          (runReadings cfg out now
            (handle_jsonsensor cfg out now t (b2_reading b)).state bs).2 := rfl
      rw [h2, countAdv1_append, hcount,
        ih _ (by rw [hpres]; exact ht), hlast, specRisingEdges]
  exact main s hp

/-- Witness for claim C9 on the alternating sequence 0 1 0 1 1 0 from
fresh state: its two fresh edges to 1 yield exactly two advances. -/
theorem c9_rising_edges_witness :
    cfgSim.simulate = true
    ∧ (init_state ["A"] []).presets1 ≠ []
    ∧ countAdv1 (runReadings cfgSim out200 0 (init_state ["A"] []) [0, 1, 0, 1, 1, 0]).2 =
        specRisingEdges (init_state ["A"] []).b2_last_state [0, 1, 0, 1, 1, 0] :=
  ⟨rfl, by decide,
    c9_rising_edges cfgSim out200 0 (init_state ["A"] []) [0, 1, 0, 1, 1, 0] rfl (by decide)⟩

/-- Claim C10: when one reading changes both b2 and b3 (b3 reporting 1),
the suppressed b3 change is not recorded, so a second identical reading —
in which b2 is unchanged and b3 still reports 1 — advances rotation 2
exactly once even though no new b3 press occurred in between; only then
is the b3 state recorded. -/
theorem c10_suppressed_b3_latent (cfg : Config) (out : String → PostOutcome)
    (now now2 : Int) (s : CState) (x : Int)
    (hsim : cfg.simulate = true) (hp1 : s.presets1 ≠ []) (hp2 : s.presets2 ≠ [])
    (hx : x ≠ s.b2_last_state) (hy : s.b3_last_state ≠ 1) :
    (handle_jsonsensor cfg out now s (bothChanged x 1)).state.b3_last_state = s.b3_last_state
    ∧ countAdv2 (handle_jsonsensor cfg out now s (bothChanged x 1)).actions = 0
    ∧ countAdv2 (handle_jsonsensor cfg out now2
        (handle_jsonsensor cfg out now s (bothChanged x 1)).state (bothChanged x 1)).actions = 1
    ∧ (handle_jsonsensor cfg out now2
        (handle_jsonsensor cfg out now s (bothChanged x 1)).state
        (bothChanged x 1)).state.b3_last_state = 1 := by
  by_cases hx1 : x = 1
  · have h1 := handle_dict_b2_new cfg out now s x ⟨some x, some 1⟩ rfl hx hx1 hsim hp1
    have h2 := handle_dict_b2_same cfg out now2
        { s with
          b2_last_pressed := some now,
          b2_last_state := x,
          current_preset1 := wrapNext s.presets1.length s.current_preset1 }
        x ⟨some x, some 1⟩ rfl rfl
    have h3 := b3_branch_press cfg out now2
        { s with
          b2_last_pressed := some now,
          b2_last_state := x,
          current_preset1 := wrapNext s.presets1.length s.current_preset1 }
        ⟨some x, some 1⟩ rfl hy hsim hp2
    refine ⟨?_, ?_, ?_, ?_⟩ <;>
      simp [bothChanged, h1, h2, h3, countAdv2, isAdv2, wled_ips, List.countP_cons]
  · have h1 := handle_dict_b2_release cfg out now s x ⟨some x, some 1⟩ rfl hx hx1
    have h2 := handle_dict_b2_same cfg out now2 { s with b2_last_state := x }
        x ⟨some x, some 1⟩ rfl rfl
    have h3 := b3_branch_press cfg out now2 { s with b2_last_state := x }
        ⟨some x, some 1⟩ rfl hy hsim hp2
    refine ⟨?_, ?_, ?_, ?_⟩ <;>
      simp [bothChanged, h1, h2, h3, countAdv2, isAdv2, wled_ips, List.countP_cons]

/-- Witness for claim C10: a simultaneous press of both buttons on fresh
state, followed by the identical reading. -/
theorem c10_suppressed_b3_latent_witness :
    cfgSim.simulate = true
    ∧ (init_state ["A"] ["B"]).presets1 ≠ []
    ∧ (init_state ["A"] ["B"]).presets2 ≠ []
    ∧ (1 : Int) ≠ (init_state ["A"] ["B"]).b2_last_state
    ∧ (init_state ["A"] ["B"]).b3_last_state ≠ 1
    ∧ ((handle_jsonsensor cfgSim out200 3 (init_state ["A"] ["B"])
          (bothChanged 1 1)).state.b3_last_state = (init_state ["A"] ["B"]).b3_last_state
      ∧ countAdv2 (handle_jsonsensor cfgSim out200 3 (init_state ["A"] ["B"])
          (bothChanged 1 1)).actions = 0
      ∧ countAdv2 (handle_jsonsensor cfgSim out200 4
          (handle_jsonsensor cfgSim out200 3 (init_state ["A"] ["B"])
            (bothChanged 1 1)).state (bothChanged 1 1)).actions = 1
      ∧ (handle_jsonsensor cfgSim out200 4
          (handle_jsonsensor cfgSim out200 3 (init_state ["A"] ["B"])
            (bothChanged 1 1)).state (bothChanged 1 1)).state.b3_last_state = 1) :=
  ⟨rfl, by decide, by decide, by decide, by decide,
    c10_suppressed_b3_latent cfgSim out200 3 4 (init_state ["A"] ["B"]) 1 rfl
      (by decide) (by decide) (by decide) (by decide)⟩

end M2W
